import Mathlib

/-!
Shallow embedding of the core of a desktop chat client over the OpenRouter
HTTP API (files `src/api/openrouter.py`, `src/main.py`,
`src/utils/notifications.py`, `src/ui/auth.py`).

Remote HTTP interactions are modelled by explicit environment parameters:
each remote endpoint's behaviour during a call is a value of an `Except` or
a bespoke outcome type, so a function of the embedding receives the outcome
the network would have produced and is otherwise a pure function of the
client state.  Python exceptions that escape a function are modelled with
`Except`; exceptions that the source catches are folded into the returned
value, exactly along the `try`/`except` structure of the source.  Python
floats carrying monetary amounts are modelled as rationals, and `"%.2f"`
formatting as round-half-to-even at two decimal places, which agrees with
CPython on every amount whose binary representation is exact.  Logging is
not modelled.
-/

/-- A model descriptor as built by `OpenRouterClient.get_models`:
`{"id": model["id"], "name": model["name"]}`. -/
structure ModelInfo where
  id : String
  name : String
deriving DecidableEq, Repr

/-- The mutable attributes of an `OpenRouterClient` instance that the core
methods read or write: `self.api_key` (from the constructor argument or the
environment, `None` when absent) and `self.available_models`, which is
`none` while the attribute has never been assigned (`hasattr` is false). -/
structure ClientState where
  api_key : Option String
  available_models : Option (List ModelInfo)
deriving DecidableEq, Repr

/-- Python truthiness of `self.api_key`: `not self.api_key` is true when the
key is `None` or the empty string. -/
def keyPresent : Option String → Bool
  | none => false
  | some s => !s.isEmpty

/-- The `models_default` list returned by `get_models` on any exception
(`src/api/openrouter.py` lines 103-107). -/
def models_default : List ModelInfo :=
  [⟨"deepseek-coder", "DeepSeek"⟩,
   ⟨"claude-3-sonnet", "Claude 3.5 Sonnet"⟩,
   ⟨"gpt-3.5-turbo", "GPT-3.5 Turbo"⟩]

/-- Result of one call to `get_models`: the returned list, the client state
after the call, and how many remote `GET /models` requests were issued. -/
structure ModelsOutcome where
  models : List ModelInfo
  state : ClientState
  remoteCalls : Nat
deriving DecidableEq, Repr

/-- `OpenRouterClient.get_models` (`src/api/openrouter.py` lines 61-110).
The whole body sits in a blanket `try`/`except`: first
`validate_api_key()` (raises `ValueError` when the key is absent, caught by
the `except`), then the cached `self.available_models` is returned when the
attribute exists and `force_refresh` is false, otherwise a remote fetch.
`env` is the outcome of that fetch: `.ok ms` when the request, its JSON
decoding and the extraction of `id`/`name` from every entry of
`models_data["data"]` all succeed, `.error e` for any transport or parse
failure.  Any failure lands in the `except` branch, which returns
`models_default`.  The method never assigns `self.available_models`, so the
state is returned unchanged on every path. -/
def get_models (env : Except String (List ModelInfo)) (st : ClientState)
    (force_refresh : Bool) : ModelsOutcome :=
  if keyPresent st.api_key = false then
    ⟨models_default, st, 0⟩
  else
    match st.available_models, force_refresh with
    | some ms, false => ⟨ms, st, 0⟩
    | _, _ =>
      match env with
      | .ok ms => ⟨ms, st, 1⟩
      | .error _ => ⟨models_default, st, 1⟩

/-- The fields of a successful `POST /chat/completions` JSON body that
`src/main.py` reads: `response["choices"][0]["message"]["content"]` and
`response.get("usage", {}).get("total_tokens", 0)`. -/
structure ChatOk where
  content : String
  total_tokens : Nat
deriving DecidableEq, Repr

/-- The dictionary `send_message` returns: either the decoded success body
or the tagged error dictionary `{"error": str(e)}` built in its `except`
branch. -/
inductive ChatResponse
  | success (ok : ChatOk)
  | error (msg : String)
deriving DecidableEq, Repr

/-- Result of a `send_message` call that did not raise: the returned
dictionary, the model id actually placed in the request body, and the
client state after the call. -/
structure SendOutcome where
  response : ChatResponse
  usedModel : String
  state : ClientState
deriving DecidableEq, Repr

/-- The model-resolution block of `send_message`
(`src/api/openrouter.py` lines 126-129): when the attribute is absent,
`self.available_models = self.get_models()`, then
`model = self.available_models[0]['id'] if self.available_models else
"gpt-3.5-turbo"`.  Returns the resolved id and the updated state. -/
def resolve_model (modelsEnv : Except String (List ModelInfo))
    (st : ClientState) : String × ClientState :=
  let st1 : ClientState :=
    if st.available_models.isNone then
      { st with available_models := some (get_models modelsEnv st false).models }
    else st
  (match st1.available_models with
    | some (m :: _) => m.id
    | _ => "gpt-3.5-turbo",
   st1)

/-- `OpenRouterClient.send_message` (`src/api/openrouter.py` lines 112-166).
`validate_api_key()` is called outside any `try`, so a missing key raises
`ValueError` to the caller (the `.error` of the outer `Except`).  When
`model` is falsy (`None` or `""`), the resolution block `resolve_model`
runs.  The completion request itself sits in a `try`/`except`:
`chatEnv` is `.ok body` when the POST returns a 2xx response with a
decodable body, `.error e` (the exception's string) on non-2xx
(`raise_for_status`) or transport failure; the `except` branch turns that
exception into the returned `{"error": str(e)}`. -/
def send_message (modelsEnv : Except String (List ModelInfo))
    (chatEnv : Except String ChatOk) (st : ClientState)
    (model : Option String) : Except String SendOutcome :=
  if keyPresent st.api_key = false then
    .error "OpenRouter API key not provided"
  else
    let needResolve : Bool :=
      match model with
      | none => true
      | some m => m.isEmpty
    let rm : String × ClientState :=
      if needResolve then resolve_model modelsEnv st else (model.getD "", st)
    match chatEnv with
    | .ok body => .ok ⟨.success body, rm.1, rm.2⟩
    | .error e => .ok ⟨.error e, rm.1, rm.2⟩

/-- Rounding to the nearest integer with ties to even, the rule CPython's
`format` applies to the decimal value of a float. -/
def roundHalfEven (q : ℚ) : ℤ :=
  if q - ⌊q⌋ < 1 / 2 then ⌊q⌋
  else if 1 / 2 < q - ⌊q⌋ then ⌊q⌋ + 1
  else if ⌊q⌋ % 2 = 0 then ⌊q⌋ else ⌊q⌋ + 1

/-- Python `f"{x:.2f}"`: the amount rounded (half to even) at two decimal
places and printed with exactly two digits after the point. -/
def format2 (q : ℚ) : String :=
  (if roundHalfEven (q * 100) < 0 then "-" else "")
    ++ toString ((roundHalfEven (q * 100)).natAbs / 100) ++ "."
    ++ (if (roundHalfEven (q * 100)).natAbs % 100 < 10 then "0" else "")
    ++ toString ((roundHalfEven (q * 100)).natAbs % 100)

/-- The `GET /credits` interaction as `get_balance` consumes it.
`failure e` is any exception from the request or `response.json()`;
`jsonFalsy` is a decoded body that is falsy (the `if data:` guard fails);
`dataNone` is a truthy body whose `data.get('data')` is `None`, so the
subsequent `.get` raises `AttributeError` (caught by the `except`);
`ok tc tu` is a truthy body with a dictionary under `"data"`, whose
`total_credits` / `total_usage` entries are absent (`none`) or numeric. -/
inductive CreditsResp
  | failure (e : String)
  | jsonFalsy
  | dataNone
  | ok (total_credits : Option ℚ) (total_usage : Option ℚ)
deriving DecidableEq, Repr

/-- `OpenRouterClient.get_balance` (`src/api/openrouter.py` lines 168-197).
Inside a blanket `try`/`except` returning `"Ошибка"`: optional
`validate_api_key()` (its `ValueError` is caught here), the request, then
`f"${(data.get('total_credits', 0)-data.get('total_usage', 0)):.2f}"` with
missing keys defaulting to `0`; a falsy body returns `"Ошибка"` directly. -/
def get_balance (validate : Bool) (env : CreditsResp) (st : ClientState) :
    String :=
  if validate ∧ keyPresent st.api_key = false then "Ошибка"
  else
    match env with
    | .failure _ => "Ошибка"
    | .jsonFalsy => "Ошибка"
    | .dataNone => "Ошибка"
    | .ok tc tu => "$" ++ format2 (tc.getD 0 - tu.getD 0)

/-- Python `s.lstrip('$')`: drop every leading `'$'`. -/
def lstripDollar (s : String) : String :=
  String.mk (s.toList.dropWhile (fun c => c = '$'))

/-- Value of a decimal digit character. -/
def digitVal (c : Char) : Option ℕ :=
  if c.isDigit then some (c.toNat - 48) else none

/-- Reads a nonempty all-digit character list as a natural number. -/
def parseNatDigits (cs : List Char) : Option ℕ :=
  if cs.isEmpty then none
  else
    cs.foldl
      (fun acc c =>
        match acc, digitVal c with
        | some n, some d => some (n * 10 + d)
        | _, _ => none)
      (some 0)

/-- Syntactic phase of reading a plain decimal numeral: the sign, the
integer part, the fractional digits' value and their count.  This phase is
all characters and naturals, so it evaluates inside `decide`. -/
def parse_decimal (s : String) : Option (Bool × ℕ × ℕ × ℕ) :=
  let signed : Bool × List Char :=
    match s.toList with
    | '-' :: rest => (true, rest)
    | cs => (false, cs)
  match signed.2.splitOn '.' with
  | [w] => (parseNatDigits w).map (fun n => (signed.1, n, 0, 0))
  | [w, f] =>
    match parseNatDigits w, parseNatDigits f with
    | some n, some m => some (signed.1, n, m, f.length)
    | _, _ => none
  | _ => none

/-- Python `float(s)` restricted to plain decimal notation: an optional
minus sign, an integer part, and an optional fractional part, as produced
by `get_balance`; anything else (the model does not cover exponents or
`inf`/`nan` spellings) is a `ValueError`, i.e. `none`. -/
def parse_float (s : String) : Option ℚ :=
  (parse_decimal s).map
    (fun r =>
      (if r.1 then -1 else 1) * ((r.2.1 : ℚ) + (r.2.2.1 : ℚ) / 10 ^ r.2.2.2))

/-- `OpenRouterClient.check_balance_and_notify`
(`src/api/openrouter.py` lines 199-224).  Reads `self.get_balance()`
(with its default `validate=True`); on the `"Ошибка"` sentinel it logs and
returns.  Otherwise `float(balance_str.lstrip('$'))` inside a
`try`/`except ValueError`; when the parsed value is strictly below
`threshold` it calls `send_telegram_notification`.  The returned boolean
says whether that dispatcher call happened. -/
def check_balance_and_notify (threshold : ℚ) (env : CreditsResp)
    (st : ClientState) : Bool :=
  let balance_str := get_balance true env st
  if balance_str = "Ошибка" then false
  else
    match parse_float (lstripDollar balance_str) with
    | some balance_value => balance_value < threshold
    | none => false

/-- Contiguous-sublist test on character lists. -/
def listContains (needle : List Char) : List Char → Bool
  | [] => needle.isEmpty
  | c :: t => needle.isPrefixOf (c :: t) || listContains needle t

/-- Python `needle in haystack` on strings: substring containment. -/
def strContains (haystack needle : String) : Bool :=
  listContains needle.toList haystack.toList

/-- The error-text rewriting of `send_message_click` (`src/main.py` lines
160-164): `error_text = str(response["error"])`, then the
`unsupported_country_region_territory` substring maps to the localized
region message, else the `temporarily unavailable` substring maps to the
localized availability message, else `error_text` is left as it came. -/
def format_error_text (error_text : String) : String :=
  if strContains error_text "unsupported_country_region_territory" then
    "Модель недоступна в вашем регионе. Пожалуйста, выберите другую модель."
  else if strContains error_text "temporarily unavailable" then
    "Модель временно недоступна. Пожалуйста, выберите другую модель."
  else error_text

/-- What `send_message_click` (`src/main.py` lines 159-171) turns a
`send_message` response into: the text appended to the chat and the token
count saved with it.  The error branch renders
`f"Ошибка: {error_text}"` with `tokens_used = 0`; the success branch reads
the completion content and `usage.total_tokens`. -/
def handle_response (r : ChatResponse) : String × ℕ :=
  match r with
  | .error msg => ("Ошибка: " ++ format_error_text msg, 0)
  | .success ok => (ok.content, ok.total_tokens)

/-- The credential row that `ChatCache.get_auth_data` hands back, as
consumed by `src/utils/notifications.py` and `src/main.py`:
`(api_key, pin, telegram_chat_id)`; `none` models an absent row (falsy
`auth_data`). -/
structure AuthData where
  api_key : String
  pin : String
  telegram_chat_id : String
deriving DecidableEq, Repr

/-- Outcome of the one `bot.send_message` attempt inside
`send_telegram_notification`: delivered, or a raised `TelegramError`
(which covers the library's transport failures such as `NetworkError`). -/
inductive TelegramOutcome
  | sent
  | telegramError (e : String)
deriving DecidableEq, Repr

/-- What a call to `send_telegram_notification` did. -/
inductive NotifyResult
  | skippedNoChatId
  | delivered
  | failedLogged (e : String)
deriving DecidableEq, Repr

/-- `send_telegram_notification` (`src/utils/notifications.py` lines
19-39).  If `auth_data` is falsy or `auth_data[2]` (the chat id) is falsy,
it logs a warning and returns.  Otherwise the bot send runs inside
`try`/`except TelegramError`, whose handler only logs.  The function's
Python return type is `None` on every path: nothing is raised for a
missing id or a failed delivery. -/
def send_telegram_notification (auth_data : Option AuthData)
    (outcome : TelegramOutcome) : NotifyResult :=
  match auth_data with
  | none => .skippedNoChatId
  | some ad =>
    if ad.telegram_chat_id.isEmpty then .skippedNoChatId
    else
      match outcome with
      | .sent => .delivered
      | .telegramError e => .failedLogged e

/-- One row of the message-history table as `src/main.py` receives it from
`ChatCache.get_chat_history`: the tuple
`(id, model, user_message, ai_response, timestamp, tokens_used)`
(indices 0-5 in `save_dialog` and `load_chat_history`). -/
structure MessageRecord where
  id : ℕ
  model : String
  user_message : String
  ai_response : String
  timestamp : String
  tokens_used : ℕ
deriving DecidableEq, Repr

/-- Modelled from the spec: `ChatCache` (`utils/cache.py`) is not under
`src/`, only its callers are.  Per the spec (§3 invariant and §4.4),
`getChatHistory` returns the full history ordered chronologically, i.e. by
`id`/`timestamp` ascending; the store itself is the append-ordered list of
rows with ascending ids, so the chronological read is the list as stored. -/
def get_chat_history (store : List MessageRecord) : List MessageRecord :=
  store

/-- One object of the exported JSON array, as assembled by `save_dialog`
(`src/main.py` lines 288-295): `{"timestamp": msg[4], "model": msg[1],
"user_message": msg[2], "ai_response": msg[3], "tokens_used": msg[5]}`. -/
structure ExportEntry where
  timestamp : String
  model : String
  user_message : String
  ai_response : String
  tokens_used : ℕ
deriving DecidableEq, Repr

/-- The `dialog_data` list that `save_dialog` builds from the history and
passes to `json.dump`. -/
def save_dialog_data (history : List MessageRecord) : List ExportEntry :=
  history.map
    (fun m => ⟨m.timestamp, m.model, m.user_message, m.ai_response, m.tokens_used⟩)

/-- JSON values as far as the export file needs them: strings, naturals,
arrays and objects. -/
inductive JsonVal
  | str (s : String)
  | num (n : ℕ)
  | arr (xs : List JsonVal)
  | obj (fields : List (String × JsonVal))

/-- Key lookup in a JSON object, first binding wins. -/
def jsonLookup (fields : List (String × JsonVal)) (k : String) :
    Option JsonVal :=
  (fields.find? (fun p => p.1 == k)).map (fun p => p.2)

/-- The JSON object `json.dump` writes for one export entry. -/
def entryToJson (e : ExportEntry) : JsonVal :=
  .obj [("timestamp", .str e.timestamp), ("model", .str e.model),
        ("user_message", .str e.user_message),
        ("ai_response", .str e.ai_response),
        ("tokens_used", .num e.tokens_used)]

/-- The JSON document `save_dialog` writes: the array of entry objects in
the order of `dialog_data`. -/
def export_json (history : List MessageRecord) : JsonVal :=
  .arr ((save_dialog_data (get_chat_history history)).map entryToJson)

/-- Projects a string field out of a looked-up JSON value. -/
def asStr : Option JsonVal → Option String
  | some (.str s) => some s
  | _ => none

/-- Projects a numeric field out of a looked-up JSON value. -/
def asNum : Option JsonVal → Option ℕ
  | some (.num n) => some n
  | _ => none

/-- Reparsing one object of the export file back into an entry. -/
def entryOfJson : JsonVal → Option ExportEntry
  | .obj fs =>
    match asStr (jsonLookup fs "timestamp"), asStr (jsonLookup fs "model"),
        asStr (jsonLookup fs "user_message"),
        asStr (jsonLookup fs "ai_response"),
        asNum (jsonLookup fs "tokens_used") with
    | some ts, some mo, some um, some ar, some tk =>
      some ⟨ts, mo, um, ar, tk⟩
    | _, _, _, _, _ => none
  | _ => none

/-- Reparsing the export file: the document must be an array and every
element must reparse as an entry, in order. -/
def reparse_export : JsonVal → Option (List ExportEntry)
  | .arr xs => xs.mapM entryOfJson
  | _ => none

/-- C10: when the API key is unset, `get_models` does not raise the
missing-credential `ValueError` to its caller: `validate_api_key`'s failure
lands in the blanket `except` handler, which returns the fixed three-entry
fallback list (and issues no remote call, leaving the state unchanged). -/
theorem c10_get_models_missing_key (env : Except String (List ModelInfo))
    (st : ClientState) (force : Bool) (hk : keyPresent st.api_key = false) :
    get_models env st force = ⟨models_default, st, 0⟩
      ∧ models_default.length = 3 := by
  refine ⟨?_, by decide⟩
  simp [get_models, hk]

/-- C10 witness: a client built with no key at all gets the fallback list
from `get_models` instead of an error. -/
theorem c10_get_models_missing_key_witness :
    get_models (.ok [⟨"a", "A"⟩]) ⟨none, none⟩ false
        = ⟨models_default, ⟨none, none⟩, 0⟩
      ∧ models_default.length = 3 :=
  c10_get_models_missing_key (.ok [⟨"a", "A"⟩]) ⟨none, none⟩ false (by decide)

/-- C7: whenever the remote model-list fetch actually runs (key present and
either no cached attribute or `force_refresh`) and fails with any transport
or parse error, `get_models` propagates nothing: it returns the fixed
fallback list `models_default`, which has exactly three entries and in
particular is nonempty. -/
theorem c7_get_models_failure_fallback (e : String) (st : ClientState)
    (force : Bool) (hk : keyPresent st.api_key = true)
    (hf : st.available_models = none ∨ force = true) :
    (get_models (.error e) st force).models = models_default
      ∧ models_default.length = 3
      ∧ (get_models (.error e) st force).models ≠ [] := by
  have hm : (get_models (.error e) st force).models = models_default := by
    rcases hf with hf | hf
    · simp [get_models, hk, hf]
    · subst hf
      cases hc : st.available_models <;> simp [get_models, hk, hc]
  exact ⟨hm, by decide, by rw [hm]; decide⟩

/-- C7 witness: a fresh keyed client whose fetch times out still gets the
three fallback models. -/
theorem c7_get_models_failure_fallback_witness :
    (get_models (.error "timeout") ⟨some "k", none⟩ false).models
        = models_default
      ∧ models_default.length = 3
      ∧ (get_models (.error "timeout") ⟨some "k", none⟩ false).models ≠ [] :=
  c7_get_models_failure_fallback "timeout" ⟨some "k", none⟩ false (by decide)
    (Or.inl rfl)

/-- C4: for an error dictionary coming back from `send_message`, the UI
error path renders `"Ошибка: "` followed by the rewritten text, where a
message containing the unsupported-region marker becomes the localized
region explanation, a message containing the temporary-unavailability
marker (and not the region marker) becomes the localized availability
explanation, and any other message is passed through verbatim. -/
theorem c4_error_translation (e : String) :
    (strContains e "unsupported_country_region_territory" = true →
        format_error_text e
          = "Модель недоступна в вашем регионе. Пожалуйста, выберите другую модель.")
      ∧ (strContains e "unsupported_country_region_territory" = false →
          strContains e "temporarily unavailable" = true →
          format_error_text e
            = "Модель временно недоступна. Пожалуйста, выберите другую модель.")
      ∧ (strContains e "unsupported_country_region_territory" = false →
          strContains e "temporarily unavailable" = false →
          format_error_text e = e)
      ∧ handle_response (.error e) = ("Ошибка: " ++ format_error_text e, 0) := by
  refine ⟨fun h1 => ?_, fun h1 h2 => ?_, fun h1 h2 => ?_, rfl⟩
  · simp [format_error_text, h1]
  · simp [format_error_text, h1, h2]
  · simp [format_error_text, h1, h2]

/-- C4 witness: each of the three rewriting branches evaluated on a
concrete remote error message. -/
theorem c4_error_translation_witness :
    format_error_text "upstream 403: unsupported_country_region_territory"
        = "Модель недоступна в вашем регионе. Пожалуйста, выберите другую модель."
      ∧ format_error_text "model is temporarily unavailable, retry later"
        = "Модель временно недоступна. Пожалуйста, выберите другую модель."
      ∧ format_error_text "quota exceeded" = "quota exceeded" :=
  ⟨(c4_error_translation "upstream 403: unsupported_country_region_territory").1
      (by decide),
   (c4_error_translation "model is temporarily unavailable, retry later").2.1
      (by decide) (by decide),
   (c4_error_translation "quota exceeded").2.2.1 (by decide) (by decide)⟩

/-- C2: on a successful credits response carrying both `total_credits` and
`total_usage`, `get_balance` returns `'$'` followed by
`total_credits - total_usage` formatted to exactly two decimal places; in
particular the response `{total_credits: 10.0, total_usage: 7.5}` yields
`"$2.50"`. -/
theorem c2_get_balance_format (tc tu : ℚ) (st : ClientState)
    (hk : keyPresent st.api_key = true) :
    get_balance true (.ok (some tc) (some tu)) st = "$" ++ format2 (tc - tu)
      ∧ get_balance true (.ok (some 10) (some (15 / 2))) st = "$2.50" := by
  constructor
  · simp [get_balance, hk]
  · have h : roundHalfEven (250 : ℚ) = 250 := by norm_num [roundHalfEven]
    have harg : ((10 : ℚ) - 15 / 2) * 100 = 250 := by norm_num
    simp only [get_balance, hk, Option.getD_some]
    rw [format2, harg, h]
    decide

/-- C2 witness: the concrete response of the claim against a keyed
client. -/
theorem c2_get_balance_format_witness :
    get_balance true (.ok (some 10) (some (15 / 2))) ⟨some "k", none⟩
        = "$" ++ format2 (10 - 15 / 2)
      ∧ get_balance true (.ok (some 10) (some (15 / 2))) ⟨some "k", none⟩
        = "$2.50" :=
  c2_get_balance_format 10 (15 / 2) ⟨some "k", none⟩ (by decide)

/-- C8: with a key set, any non-2xx response (via `raise_for_status`) or
transport failure of the chat-completion call makes `send_message` return
normally with the tagged dictionary `{"error": str(e)}` — the outer
`Except` is `.ok`, i.e. nothing is raised across the core boundary. -/
theorem c8_send_message_tagged_error (modelsEnv : Except String (List ModelInfo))
    (e : String) (st : ClientState) (model : Option String)
    (hk : keyPresent st.api_key = true) :
    ∃ out, send_message modelsEnv (.error e) st model = .ok out
      ∧ out.response = .error e := by
  unfold send_message
  rw [if_neg (by simp [hk])]
  exact ⟨_, rfl, rfl⟩

/-- C8 witness: a concrete 502 failure comes back as a tagged error
dictionary, not an exception. -/
theorem c8_send_message_tagged_error_witness :
    ∃ out,
      send_message (.ok []) (.error "502 Bad Gateway") ⟨some "k", none⟩
          (some "gpt-3.5-turbo")
        = .ok out ∧ out.response = .error "502 Bad Gateway" :=
  c8_send_message_tagged_error (.ok []) "502 Bad Gateway" ⟨some "k", none⟩
    (some "gpt-3.5-turbo") (by decide)

/-- The id `resolve_model` picks is the head of what `get_models` would
return for this client, or the hard-coded default on an empty list. -/
theorem resolve_model_spec (modelsEnv : Except String (List ModelInfo))
    (st : ClientState) (hk : keyPresent st.api_key = true) :
    (resolve_model modelsEnv st).1
      = (match (get_models modelsEnv st false).models with
          | [] => "gpt-3.5-turbo"
          | m :: _ => m.id) := by
  unfold resolve_model
  cases hc : st.available_models with
  | none =>
    simp only [hc, Option.isNone_none, if_true]
    cases hms : (get_models modelsEnv st false).models <;> simp [hms]
  | some ms =>
    have hcached : (get_models modelsEnv st false).models = ms := by
      simp [get_models, hk, hc]
    rw [hcached]
    simp only [hc, Option.isNone_some]
    cases ms <;> simp [hc]

/-- C6: with a key set and a falsy `model` argument (`None` or `""`),
`send_message` never issues the request with an unresolved model: the model
placed in the request body is the id of the first entry of what
`get_models()` returns for this client (the cached list when the attribute
exists, the fetched or fallback list otherwise), or the hard-coded
`"gpt-3.5-turbo"` when that list is empty. -/
theorem c6_send_message_model_resolution
    (modelsEnv : Except String (List ModelInfo))
    (chatEnv : Except String ChatOk) (st : ClientState) (model : Option String)
    (hk : keyPresent st.api_key = true)
    (hm : model = none ∨ model = some "") :
    ∃ out, send_message modelsEnv chatEnv st model = .ok out
      ∧ out.usedModel =
          (match (get_models modelsEnv st false).models with
            | [] => "gpt-3.5-turbo"
            | m :: _ => m.id) := by
  rcases hm with rfl | rfl <;>
    (unfold send_message
     rw [if_neg (by simp [hk])]
     cases chatEnv with
     | ok body => exact ⟨_, rfl, resolve_model_spec modelsEnv st hk⟩
     | error e => exact ⟨_, rfl, resolve_model_spec modelsEnv st hk⟩)

/-- C6 witness: a fresh keyed client sending with `model=None` resolves to
the first fetched model's id. -/
theorem c6_send_message_model_resolution_witness :
    ∃ out,
      send_message (.ok [⟨"mA", "A"⟩, ⟨"mB", "B"⟩]) (.ok ⟨"hi", 5⟩)
          ⟨some "k", none⟩ none
        = .ok out
      ∧ out.usedModel =
          (match (get_models (.ok [⟨"mA", "A"⟩, ⟨"mB", "B"⟩])
                    ⟨some "k", none⟩ false).models with
            | [] => "gpt-3.5-turbo"
            | m :: _ => m.id) :=
  c6_send_message_model_resolution (.ok [⟨"mA", "A"⟩, ⟨"mB", "B"⟩])
    (.ok ⟨"hi", 5⟩) ⟨some "k", none⟩ none (by decide) (Or.inl rfl)

/-- C1 fails on the code as stated: on a fresh keyed client (the
`available_models` attribute never assigned), the second of two
`get_models` calls with `force_refresh=False` is not served from the
in-memory cache — it issues a remote list call of its own (remote-call
count 1, not 0), because `get_models` never stores its result in
`self.available_models`. -/
theorem c1_counterexample :
    (get_models (.ok [⟨"m1", "M1"⟩])
        ((get_models (.ok [⟨"m1", "M1"⟩]) ⟨some "key", none⟩ false).state)
        false).remoteCalls = 1 := by decide

/-- C1 (amended): two `get_models` calls with `force_refresh=False` and an
unchanged remote outcome return the identical sequence, and `get_models`
leaves the client state unchanged; but the second call is served from the
in-memory cache (no remote list call) exactly when the `available_models`
attribute was already set before the first call — which only
`send_message`'s resolution block ever does, `get_models` itself never
populating the cache. -/
theorem c1_get_models_second_call (env : Except String (List ModelInfo))
    (st : ClientState) (hk : keyPresent st.api_key = true) :
    (get_models env st false).models
        = (get_models env (get_models env st false).state false).models
      ∧ (get_models env st false).state = st
      ∧ ((get_models env (get_models env st false).state false).remoteCalls = 0
          ↔ st.available_models.isSome = true) := by
  have hstate : (get_models env st false).state = st := by
    unfold get_models
    cases h : keyPresent st.api_key with
    | false => rfl
    | true =>
      rw [if_neg (by simp [h])]
      cases st.available_models <;> cases env <;> rfl
  refine ⟨by rw [hstate], hstate, ?_⟩
  rw [hstate]
  cases hc : st.available_models with
  | none =>
    simp only [Option.isSome_none]
    unfold get_models
    rw [if_neg (by simp [hk])]
    cases env <;> simp [hc]
  | some ms =>
    simp only [Option.isSome_some]
    unfold get_models
    rw [if_neg (by simp [hk])]
    simp [hc]

/-- C1 witness: with the attribute already populated, the second call hits
the cache; the amended theorem applied at a concrete client. -/
theorem c1_get_models_second_call_witness :
    (get_models (.error "down") ⟨some "key", some [⟨"m", "M"⟩]⟩ false).models
        = (get_models (.error "down")
            ((get_models (.error "down") ⟨some "key", some [⟨"m", "M"⟩]⟩
                false).state) false).models
      ∧ (get_models (.error "down") ⟨some "key", some [⟨"m", "M"⟩]⟩ false).state
        = ⟨some "key", some [⟨"m", "M"⟩]⟩
      ∧ ((get_models (.error "down")
            ((get_models (.error "down") ⟨some "key", some [⟨"m", "M"⟩]⟩
                false).state) false).remoteCalls = 0
          ↔ (ClientState.available_models
              ⟨some "key", some [⟨"m", "M"⟩]⟩).isSome = true) :=
  c1_get_models_second_call (.error "down") ⟨some "key", some [⟨"m", "M"⟩]⟩
    (by decide)

/-- C9: `send_telegram_notification` swallows every failure and never
raises: delivery happens exactly when a credential row with a nonempty
chat id exists and the bot call succeeds; a missing row or empty chat id
only logs a warning and returns; a `TelegramError` (which covers the
library's transport failures) is caught and logged, the function still
returning normally for its caller's chat or auth flow. -/
theorem c9_notification_swallowed (auth : Option AuthData)
    (outcome : TelegramOutcome) :
    (send_telegram_notification auth outcome = .delivered
        ↔ (∃ ad, auth = some ad ∧ ad.telegram_chat_id ≠ ""
            ∧ outcome = .sent))
      ∧ ((auth = none
            ∨ ∃ ad, auth = some ad ∧ ad.telegram_chat_id = "") →
          send_telegram_notification auth outcome = .skippedNoChatId)
      ∧ (∀ ad e, auth = some ad → ad.telegram_chat_id ≠ "" →
          outcome = .telegramError e →
          send_telegram_notification auth outcome = .failedLogged e) := by
  refine ⟨?_, ?_, ?_⟩
  · cases auth with
    | none => simp [send_telegram_notification]
    | some ad =>
      by_cases hid : ad.telegram_chat_id = ""
      · have he : ("" : String).isEmpty = true := rfl
        cases outcome <;> simp [send_telegram_notification, he, hid]
      · have he : ad.telegram_chat_id.isEmpty = false := by
          rw [Bool.eq_false_iff]
          intro hcon
          exact hid ((String.isEmpty_iff _).mp hcon)
        cases outcome <;> simp [send_telegram_notification, he, hid]
  · rintro (rfl | ⟨ad, rfl, hid⟩)
    · rfl
    · have he : ad.telegram_chat_id.isEmpty = true :=
        (String.isEmpty_iff _).mpr hid
      simp [send_telegram_notification, he]
  · rintro ad e rfl hid rfl
    have he : ad.telegram_chat_id.isEmpty = false := by
      rw [Bool.eq_false_iff]
      intro hcon
      exact hid ((String.isEmpty_iff _).mp hcon)
    simp [send_telegram_notification, he]

/-- C9 witness: with a stored chat id and a working bot the message is
delivered; the characterization applied at concrete inputs. -/
theorem c9_notification_swallowed_witness :
    send_telegram_notification (some ⟨"k", "1234", "42"⟩) .sent = .delivered :=
  (c9_notification_swallowed (some ⟨"k", "1234", "42"⟩) .sent).1.mpr
    ⟨⟨"k", "1234", "42"⟩, rfl, by decide, rfl⟩

/-- C3: `check_balance_and_notify` calls the notification dispatcher if
and only if the balance read is not the `"Ошибка"` sentinel and the value
parsed from the balance string (after stripping the `'$'`) is strictly
below the threshold; in particular, when the balance read fails, the
function returns without dispatching anything. -/
theorem c3_check_balance_and_notify_iff (threshold : ℚ) (env : CreditsResp)
    (st : ClientState) :
    (check_balance_and_notify threshold env st = true ↔
        (get_balance true env st ≠ "Ошибка"
          ∧ ∃ v, parse_float (lstripDollar (get_balance true env st)) = some v
              ∧ v < threshold))
      ∧ (get_balance true env st = "Ошибка" →
          check_balance_and_notify threshold env st = false) := by
  constructor
  · unfold check_balance_and_notify
    by_cases hb : get_balance true env st = "Ошибка"
    · simp [hb]
    · cases hp : parse_float (lstripDollar (get_balance true env st)) with
      | none => simp [hb, hp]
      | some v => simp [hb, hp]
  · intro hb
    unfold check_balance_and_notify
    simp [hb]

/-- C3 witness: at threshold 5.0 a balance of `$2.50` triggers the
dispatcher and a failed balance read does not. -/
theorem c3_check_balance_and_notify_witness :
    check_balance_and_notify 5 (.ok (some 10) (some (15 / 2)))
        ⟨some "k", none⟩ = true
      ∧ check_balance_and_notify 5 (.failure "down") ⟨some "k", none⟩
        = false := by
  have hbal :
      get_balance true (.ok (some 10) (some (15 / 2))) ⟨some "k", none⟩
        = "$2.50" := by
    have h : roundHalfEven (250 : ℚ) = 250 := by norm_num [roundHalfEven]
    have harg : ((10 : ℚ) - 15 / 2) * 100 = 250 := by norm_num
    show "$" ++ format2 ((10 : ℚ) - 15 / 2) = "$2.50"
    rw [format2, harg, h]
    decide
  constructor
  · apply (c3_check_balance_and_notify_iff 5 (.ok (some 10) (some (15 / 2)))
      ⟨some "k", none⟩).1.mpr
    refine ⟨by rw [hbal]; decide, 5 / 2, ?_, by norm_num⟩
    have hl : lstripDollar "$2.50" = "2.50" := by decide
    have hd : parse_decimal "2.50" = some (false, 2, 50, 2) := by decide
    rw [hbal, hl, parse_float, hd]
    norm_num
  · exact (c3_check_balance_and_notify_iff 5 (.failure "down")
      ⟨some "k", none⟩).2 rfl

/-- C5: exporting a two-turn history stored in chronological order (ids
ascending) produces a JSON array that, reparsed, reproduces `model`,
`user_message`, `ai_response` and `tokens_used` (and `timestamp`) of both
turns in their original chronological order. -/
theorem c5_export_roundtrip (m1 m2 : MessageRecord) (h : m1.id < m2.id) :
    reparse_export (export_json [m1, m2])
      = some
          [⟨m1.timestamp, m1.model, m1.user_message, m1.ai_response,
            m1.tokens_used⟩,
           ⟨m2.timestamp, m2.model, m2.user_message, m2.ai_response,
            m2.tokens_used⟩] := rfl

/-- C5 witness: a concrete two-turn history round-trips through the
export file. -/
theorem c5_export_roundtrip_witness :
    reparse_export (export_json
        [⟨1, "gpt", "hello", "world", "2024-01-01 10:00", 10⟩,
         ⟨2, "claude", "foo", "bar", "2024-01-01 10:05", 20⟩])
      = some
          [⟨"2024-01-01 10:00", "gpt", "hello", "world", 10⟩,
           ⟨"2024-01-01 10:05", "claude", "foo", "bar", 20⟩] :=
  c5_export_roundtrip ⟨1, "gpt", "hello", "world", "2024-01-01 10:00", 10⟩
    ⟨2, "claude", "foo", "bar", "2024-01-01 10:05", 20⟩ (by decide)
